import Mathlib

/-!
Shallow embedding of `src/index.js` (a three-endpoint Express/MongoDB read-only
query service) together with theorems settling the frozen claims about it.

The document store is modelled as a `List Medicine` in store-native order; the
cached Mongo connection is modelled by `ConnOutcome` (the outcome of
`connectToDb()`), and a per-request store failure (a query that throws) by
`DbState.queryError`.  JavaScript primitives used by the handlers
(`parseInt`, `String.prototype.trim`, `Math.min`/`Math.max` with their NaN
propagation, the `||` default idiom) are modelled explicitly; `none : Option Int`
stands for NaN.
-/

/-! ## JavaScript primitive models -/

/-- Characters treated as whitespace by JS `String.prototype.trim` and
`parseInt` (ASCII whitespace plus the common Unicode space characters). -/
def jsWhitespace (c : Char) : Bool :=
  c = ' ' || c = '\t' || c = '\n' || c = '\r' || c = '\x0b' || c = '\x0c' ||
  c = '\u00A0' || c = '\u2028' || c = '\u2029' || c = '\uFEFF'

/-- Model of JS `s.trim()`: strip leading and trailing whitespace. -/
def jsTrim (s : String) : String :=
  String.mk (((s.data.dropWhile jsWhitespace).reverse.dropWhile jsWhitespace).reverse)

/-- Model of the JS idiom `v || d` for an optional string parameter: the
default is used when the parameter is absent (`undefined`) or is the empty
string (both are falsy). -/
def jsOrDefault (v : Option String) (d : String) : String :=
  match v with
  | none => d
  | some s => if s = "" then d else s

/-- Value of a hex digit character, `none` for a non-digit (code points 48-57
are `0`-`9`, 97-102 are `a`-`f`, 65-70 are `A`-`F`). -/
def hexVal (c : Char) : Option Nat :=
  let n := c.toNat
  if 48 ≤ n && n ≤ 57 then some (n - 48)
  else if 97 ≤ n && n ≤ 102 then some (n - 87)
  else if 65 ≤ n && n ≤ 70 then some (n - 55)
  else none

/-- Whether `c` is a digit in the given radix (radix ≤ 16 here). -/
def isRadixDigit (radix : Nat) (c : Char) : Bool :=
  match hexVal c with
  | some v => v < radix
  | none => false

/-- Numeric value of a digit string in the given radix. -/
def digitsToNat (radix : Nat) (cs : List Char) : Nat :=
  cs.foldl (fun acc c => acc * radix + ((hexVal c).getD 0)) 0

/-- Model of JS `parseInt(s)` with no radix argument: skip leading whitespace,
read an optional sign, auto-detect a `0x`/`0X` hex prefix (radix 16) falling
back to radix 10, then parse the maximal run of digits.  `none` models the NaN
result when no digit is found. -/
def jsParseInt (s : String) : Option Int :=
  let cs := s.data.dropWhile jsWhitespace
  let signAndRest : Int × List Char :=
    match cs with
    | '-' :: rest => (-1, rest)
    | '+' :: rest => (1, rest)
    | _ => (1, cs)
  let radixAndRest : Nat × List Char :=
    match signAndRest.2 with
    | '0' :: 'x' :: rest => (16, rest)
    | '0' :: 'X' :: rest => (16, rest)
    | _ => (10, signAndRest.2)
  let digits := radixAndRest.2.takeWhile (isRadixDigit radixAndRest.1)
  if digits.isEmpty then none
  else some (signAndRest.1 * (digitsToNat radixAndRest.1 digits : Nat))

/-- Model of JS `Math.max(a, x)` where `x` may be NaN (`none`): NaN
propagates. -/
def jsMax (a : Int) : Option Int → Option Int
  | none => none
  | some b => some (max a b)

/-- Model of JS `Math.min(a, x)` where `x` may be NaN (`none`): NaN
propagates. -/
def jsMin (a : Int) : Option Int → Option Int
  | none => none
  | some b => some (min a b)

/-! ## Parameter parsing and clamping (lines 77-78 and 135-136 of index.js) -/

/-- Line 77 / 135: `Math.max(0, parseInt(req.query.page || "0"))`. -/
def effectivePage (page : Option String) : Option Int :=
  jsMax 0 (jsParseInt (jsOrDefault page "0"))

/-- Line 78: `Math.min(200, Math.max(1, parseInt(req.query.size || "20")))`. -/
def effectiveSearchSize (size : Option String) : Option Int :=
  jsMin 200 (jsMax 1 (jsParseInt (jsOrDefault size "20")))

/-- Line 136: `Math.min(500, Math.max(1, parseInt(req.query.size || "100")))`. -/
def effectiveAltSize (size : Option String) : Option Int :=
  jsMin 500 (jsMax 1 (jsParseInt (jsOrDefault size "100")))

/-! ## BSON identifiers -/

/-- A BSON value usable as a document `_id`: either a native ObjectId
(canonically 24 lowercase hex characters encoding 12 bytes) or a plain
string id. -/
inductive BsonValue where
  | oid (hex : String)
  | str (s : String)
  deriving DecidableEq

/-- Model of the driver's `ObjectId.isValid(id)` for a string argument: a
12-character string (taken as 12 raw bytes) or a 24-character hex string. -/
def ObjectId.isValid (s : String) : Bool :=
  s.length == 12 || (s.length == 24 && s.data.all (fun c => (hexVal c).isSome))

/-- Lowercase hex digit character for `n < 16`. -/
def hexDigitChar (n : Nat) : Char :=
  if n < 10 then Char.ofNat (48 + n) else Char.ofNat (87 + n)

/-- Two lowercase hex digits for one byte. -/
def byteToHex (b : Nat) : List Char :=
  [hexDigitChar (b / 16 % 16), hexDigitChar (b % 16)]

/-- Model of `new ObjectId(s)` for a string the driver accepts: a 24-char hex
string is normalized to lowercase; a 12-char string is taken as 12 raw bytes
(each char masked to one byte) and rendered in canonical hex. -/
def mkObjectId (s : String) : BsonValue :=
  if s.length == 24 then BsonValue.oid (String.mk (s.data.map Char.toLower))
  else BsonValue.oid (String.mk (s.data.flatMap (fun c => byteToHex (c.toNat % 256))))

/-- Line 118 / 139: `ObjectId.isValid(id) ? new ObjectId(id) : id` — the `_id`
value the handlers filter by. -/
def idFilterValue (id : String) : BsonValue :=
  if ObjectId.isValid id then mkObjectId id else BsonValue.str id

/-! ## Data model -/

/-- A medicine document.  The named fields are the ones the service reads or
projects; `extra` stands for any further stored fields (the collection is
externally owned), so that projection is observable.  `composition_key` is
`Option` because the field is not guaranteed present. -/
structure Medicine where
  _id : BsonValue
  brand_name : String
  composition : String
  composition_key : Option String
  manufacturer : String
  dosage_form : String
  price : Int
  extra : List (String × String)
  deriving DecidableEq

/-- A medicine as returned under the projection
`{brand_name, composition, composition_key, manufacturer, dosage_form,
price}` (Mongo includes `_id` by default); the `extra` fields are dropped. -/
structure ProjectedMedicine where
  _id : BsonValue
  brand_name : String
  composition : String
  composition_key : Option String
  manufacturer : String
  dosage_form : String
  price : Int
  deriving DecidableEq

/-- The projection used by the search and alternatives queries
(lines 88-97 and 147-156). -/
def project (m : Medicine) : ProjectedMedicine :=
  { _id := m._id, brand_name := m.brand_name, composition := m.composition,
    composition_key := m.composition_key, manufacturer := m.manufacturer,
    dosage_form := m.dosage_form, price := m.price }

/-! ## Regex model (line 82: `new RegExp("^" + q, "i")`) -/

/-- One element of the compiled pattern: a literal character or the `.`
wildcard. -/
inductive RElem where
  | lit (c : Char)
  | dot
  deriving DecidableEq

/-- Characters with a special meaning in a JS regular expression (outside a
character class). -/
def isRegexMeta (c : Char) : Bool :=
  ['.', '*', '+', '?', '^', '$', '(', ')', '[', ']', '{', '}', '|', '\\'].contains c

/-- Compile the untrusted search string `q` into the fragment of regex syntax
this development models: `.` becomes the any-character wildcard, every other
character a literal.  This is faithful to `new RegExp("^" + q, "i")` exactly
for strings `q` whose only metacharacter is `.`; theorems about other
metacharacters are not stated. -/
def compileQueryRegex (q : String) : List RElem :=
  q.data.map (fun c => if c = '.' then RElem.dot else RElem.lit c)

/-- Case-insensitive character comparison (the `i` flag). -/
def charEqCI (c d : Char) : Bool :=
  c.toLower == d.toLower

/-- Anchored matching of a compiled pattern against the characters of a field:
the whole pattern must match starting at the first character (the `^` that the
code prepends); `.` matches any character except a line terminator. -/
def matchAt : List RElem → List Char → Bool
  | [], _ => true
  | _ :: _, [] => false
  | RElem.lit c :: ps, d :: ds => charEqCI c d && matchAt ps ds
  | RElem.dot :: ps, d :: ds => !(d = '\n') && matchAt ps ds

/-- Line 87: the filter `{ brand_name: { $regex: regex } }` — whether a record
matches the search regex for query `q`. -/
def searchMatch (q : String) (m : Medicine) : Bool :=
  matchAt (compileQueryRegex q) m.brand_name.data

/-- Spec-side predicate, written from the spec's words (for comparison with
the code's regex matching): the field `s` begins with `q`, compared
case-insensitively. -/
def specStartsWithCI (q s : String) : Bool :=
  List.isPrefixOf (q.data.map Char.toLower) (s.data.map Char.toLower)

/-! ## Store and connection model -/

/-- State of an established connection: the collection contents in
store-native order, and `queryError = some e` when any store operation issued
on this connection throws an error whose string description is `e`. -/
structure DbState where
  docs : List Medicine
  queryError : Option String
  deriving DecidableEq

/-- Outcome of `connectToDb()` (lines 40-59): either the connect call threw
(the handler's `await` re-raises `Error("Failed to connect to database")`), or
a collection handle is available. -/
inductive ConnOutcome where
  | failed
  | connected (st : DbState)
  deriving DecidableEq

/-- `String(err)` for the error `connectToDb` throws on connection failure
(line 57: `new Error("Failed to connect to database")`). -/
def connectErrorMessage : String := "Error: Failed to connect to database"

/-- Message for the store rejecting a NaN `skip`/`limit` value (a NaN
survives the clamping on lines 77-78/135-136 and makes the query fail; the
thrown error is caught and surfaced as a 500 like any other query error). -/
def invalidPaginationMessage : String := "Invalid skip or limit value"

/-- Model of `cursor.skip(skip).limit(limit).toArray()` over a filtered
collection in store-native order. -/
def mongoFind (docs : List Medicine) (p : Medicine → Bool) (skip limit : Nat) :
    List Medicine :=
  ((docs.filter p).drop skip).take limit

/-- Store operations a handler can issue (observable effects on the
collection handle). -/
inductive StoreOp where
  | opFindOne
  | opFind
  deriving DecidableEq

/-! ## Responses -/

/-- The JSON responses the three handlers produce. -/
inductive ApiResponse where
  | okPage (total : Nat) (documents : List ProjectedMedicine)
  | okDocument (document : Medicine)
  | notFound
  | serverError (error : String)
  deriving DecidableEq

/-- HTTP status of a response (`res.json` defaults to 200; lines 120, 106,
124, 163 set 404/500). -/
def ApiResponse.status : ApiResponse → Nat
  | ApiResponse.okPage _ _ => 200
  | ApiResponse.okDocument _ => 200
  | ApiResponse.notFound => 404
  | ApiResponse.serverError _ => 500

/-- The `error` field of the JSON body, when present. -/
def ApiResponse.errorMessage : ApiResponse → Option String
  | ApiResponse.notFound => some "Not found"
  | ApiResponse.serverError e => some e
  | _ => none

/-- The `documents` field of a page response (`[]` otherwise). -/
def pageDocuments (r : ApiResponse × List StoreOp) : List ProjectedMedicine :=
  match r.1 with
  | ApiResponse.okPage _ ds => ds
  | _ => []

/-! ## The three handlers -/

/-- `GET /api/search` (lines 71-108).  `await connectToDb()` runs first; a
connection failure is caught and returned as 500 before `q` is inspected.
Then `q` is trimmed with the `|| ""` default; an empty `q` short-circuits to
`{total: 0, documents: []}` with no store query.  Otherwise the prefix regex
query runs with the six-field projection, skip `page*size` and limit `size`;
a NaN page or size reaches `skip`/`limit` and the query fails. -/
def apiSearch (conn : ConnOutcome) (qp pagep sizep : Option String) :
    ApiResponse × List StoreOp :=
  match conn with
  | ConnOutcome.failed => (ApiResponse.serverError connectErrorMessage, [])
  | ConnOutcome.connected st =>
    let q := jsTrim (jsOrDefault qp "")
    if q = "" then (ApiResponse.okPage 0 [], [])
    else
      match st.queryError with
      | some e => (ApiResponse.serverError e, [StoreOp.opFind])
      | none =>
        match effectivePage pagep, effectiveSearchSize sizep with
        | some p, some s =>
          let projected :=
            (mongoFind st.docs (searchMatch q) (p * s).toNat s.toNat).map project
          (ApiResponse.okPage projected.length projected, [StoreOp.opFind])
        | _, _ => (ApiResponse.serverError invalidPaginationMessage, [StoreOp.opFind])

/-- `GET /api/medicines/:id` (lines 111-126): `findOne` on `_id`, using the
typed ObjectId when `id` parses as one and the raw string otherwise; `null`
result gives 404 `{error: "Not found"}`, otherwise the full document is
returned with no projection. -/
def apiGetMedicine (conn : ConnOutcome) (id : String) :
    ApiResponse × List StoreOp :=
  match conn with
  | ConnOutcome.failed => (ApiResponse.serverError connectErrorMessage, [])
  | ConnOutcome.connected st =>
    match st.queryError with
    | some e => (ApiResponse.serverError e, [StoreOp.opFindOne])
    | none =>
      match st.docs.find? (fun m => decide (m._id = idFilterValue id)) with
      | none => (ApiResponse.notFound, [StoreOp.opFindOne])
      | some doc => (ApiResponse.okDocument doc, [StoreOp.opFindOne])

/-- JS truthiness of the projected `composition_key` value in
`!base.composition_key` (line 142): an absent field and the empty string are
both falsy. -/
def truthyString : Option String → Bool
  | none => false
  | some s => !(s = "")

/-- `GET /api/medicines/:id/alternatives` (lines 129-166): fetch the base
record by `_id` (projecting `composition_key`); when it is missing or its
`composition_key` is falsy, answer `{total: 0, documents: []}` without the
second query.  Otherwise find all records with the same `composition_key` and
a different `_id`, with the search projection, skip `page*size` and limit
`size`. -/
def apiAlternatives (conn : ConnOutcome) (id : String) (pagep sizep : Option String) :
    ApiResponse × List StoreOp :=
  match conn with
  | ConnOutcome.failed => (ApiResponse.serverError connectErrorMessage, [])
  | ConnOutcome.connected st =>
    match st.queryError with
    | some e => (ApiResponse.serverError e, [StoreOp.opFindOne])
    | none =>
      match st.docs.find? (fun m => decide (m._id = idFilterValue id)) with
      | none => (ApiResponse.okPage 0 [], [StoreOp.opFindOne])
      | some base =>
        if truthyString base.composition_key then
          match effectivePage pagep, effectiveAltSize sizep with
          | some p, some s =>
            let projected :=
              (mongoFind st.docs
                (fun m => decide (m.composition_key = base.composition_key ∧
                  m._id ≠ base._id))
                (p * s).toNat s.toNat).map project
            (ApiResponse.okPage projected.length projected,
              [StoreOp.opFindOne, StoreOp.opFind])
          | _, _ =>
            (ApiResponse.serverError invalidPaginationMessage,
              [StoreOp.opFindOne, StoreOp.opFind])
        else (ApiResponse.okPage 0 [], [StoreOp.opFindOne])

/-! ## Sample records (used in witnesses and counterexamples) -/

/-- A paracetamol record with a native ObjectId and an extra stored field. -/
def paracetamolA : Medicine :=
  { _id := BsonValue.oid "aaaaaaaaaaaaaaaaaaaaaaaa", brand_name := "Paracetamol",
    composition := "Acetaminophen 500mg", composition_key := some "acetaminophen-500",
    manufacturer := "Acme", dosage_form := "tablet", price := 20,
    extra := [("pack_size", "10")] }

/-- A second record sharing `paracetamolA`'s composition key. -/
def paracetamolB : Medicine :=
  { _id := BsonValue.oid "bbbbbbbbbbbbbbbbbbbbbbbb", brand_name := "Paracip",
    composition := "Acetaminophen 500mg", composition_key := some "acetaminophen-500",
    manufacturer := "Beta", dosage_form := "tablet", price := 18, extra := [] }

/-- A third record sharing the key, with a plain string id. -/
def paracetamolC : Medicine :=
  { _id := BsonValue.str "c1", brand_name := "Paramol",
    composition := "Acetaminophen 500mg", composition_key := some "acetaminophen-500",
    manufacturer := "Gamma", dosage_form := "syrup", price := 30, extra := [] }

/-- A record whose brand name is the single letter `X`. -/
def medX : Medicine :=
  { _id := BsonValue.str "x1", brand_name := "X", composition := "",
    composition_key := none, manufacturer := "", dosage_form := "", price := 0,
    extra := [] }

/-- A record whose `composition_key` is present but equal to the empty string. -/
def medEmptyKey : Medicine :=
  { _id := BsonValue.str "e1", brand_name := "EmptyKey", composition := "",
    composition_key := some "", manufacturer := "", dosage_form := "", price := 5,
    extra := [] }

/-! ## Clamp bounds -/

lemma effectiveSearchSize_bounds {sp : Option String} {n : Int}
    (h : effectiveSearchSize sp = some n) : 1 ≤ n ∧ n ≤ 200 := by
  cases hx : jsParseInt (jsOrDefault sp "20") with
  | none => simp [effectiveSearchSize, jsMax, jsMin, hx] at h
  | some v =>
    simp [effectiveSearchSize, jsMax, jsMin, hx] at h
    omega

lemma effectiveAltSize_bounds {sp : Option String} {n : Int}
    (h : effectiveAltSize sp = some n) : 1 ≤ n ∧ n ≤ 500 := by
  cases hx : jsParseInt (jsOrDefault sp "100") with
  | none => simp [effectiveAltSize, jsMax, jsMin, hx] at h
  | some v =>
    simp [effectiveAltSize, jsMax, jsMin, hx] at h
    omega

lemma effectivePage_nonneg {pp : Option String} {n : Int}
    (h : effectivePage pp = some n) : 0 ≤ n := by
  cases hx : jsParseInt (jsOrDefault pp "0") with
  | none => simp [effectivePage, jsMax, hx] at h
  | some v =>
    simp [effectivePage, jsMax, hx] at h
    omega

/-- C2 counterexample: for the size parameter `"abc"`, `parseInt` yields NaN,
`Math.min`/`Math.max` propagate it, and the effective size is NaN (`none`) —
it does not lie in `[1,200]` (search) or `[1,500]` (alternatives), so the
clamping does not hold for every input value. -/
theorem sizeClampNaN_cex :
    effectiveSearchSize (some "abc") = none ∧
    effectiveAltSize (some "abc") = none ∧
    ¬ ∃ n : Int, effectiveSearchSize (some "abc") = some n ∧ 1 ≤ n ∧ n ≤ 200 := by
  refine ⟨by decide, by decide, ?_⟩
  rintro ⟨n, h, -⟩
  rw [show effectiveSearchSize (some "abc") = none from by decide] at h
  exact Option.noConfusion h

/-- C2 (amended): whenever `parseInt` on the size parameter yields a number,
the effective size lies in `[1,200]` for search and `[1,500]` for
alternatives; the defaults are 20 and 100, `size=0` is raised to 1 and
`size=9999` is lowered to 200 resp. 500.  (A non-numeric size yields NaN,
which is passed through unclamped.) -/
theorem sizeClampBounds :
    (∀ sp n, effectiveSearchSize sp = some n → 1 ≤ n ∧ n ≤ 200) ∧
    (∀ sp n, effectiveAltSize sp = some n → 1 ≤ n ∧ n ≤ 500) ∧
    effectiveSearchSize none = some 20 ∧ effectiveAltSize none = some 100 ∧
    effectiveSearchSize (some "0") = some 1 ∧ effectiveAltSize (some "0") = some 1 ∧
    effectiveSearchSize (some "9999") = some 200 ∧
    effectiveAltSize (some "9999") = some 500 :=
  ⟨fun _ _ h => effectiveSearchSize_bounds h, fun _ _ h => effectiveAltSize_bounds h,
    by decide, by decide, by decide, by decide, by decide, by decide⟩

/-- Witness for the amended C2 at the concrete size parameter `"7"`. -/
theorem sizeClampBounds_witness : (1 : Int) ≤ 7 ∧ (7 : Int) ≤ 200 :=
  sizeClampBounds.1 (some "7") 7 (by decide)

/-! ## C10: empty-string composition key is falsy -/

/-- C10: when the base record is found but its `composition_key` is the empty
string, the alternatives handler answers `{total: 0, documents: []}` after
only the base lookup, exactly as when the field is absent — the test
`!base.composition_key` is on JS truthiness, and `""` and an absent field are
equally falsy. -/
theorem emptyCompositionKeyFalsy (docs : List Medicine) (id : String)
    (pagep sizep : Option String) (base : Medicine)
    (hfind : docs.find? (fun m => decide (m._id = idFilterValue id)) = some base)
    (hkey : base.composition_key = some "") :
    apiAlternatives (ConnOutcome.connected ⟨docs, none⟩) id pagep sizep =
      (ApiResponse.okPage 0 [], [StoreOp.opFindOne]) ∧
    truthyString (some "") = truthyString none := by
  constructor
  · simp [apiAlternatives, hfind, hkey, truthyString]
  · decide

/-- Witness for C10 at a concrete store and id. -/
theorem emptyCompositionKeyFalsy_witness :
    apiAlternatives (ConnOutcome.connected ⟨[medEmptyKey, medX], none⟩) "e1"
        none none =
      (ApiResponse.okPage 0 [], [StoreOp.opFindOne]) ∧
    truthyString (some "") = truthyString none :=
  emptyCompositionKeyFalsy [medEmptyKey, medX] "e1" none none medEmptyKey
    (by decide) (by decide)

/-! ## C6: alternatives early return -/

/-- C6: when the base lookup finds no record for `id`, or the base record's
`composition_key` is falsy, the alternatives handler returns
`{total: 0, documents: []}` having issued only the base `findOne` — the
second query never runs, whatever other records the store holds. -/
theorem alternativesEarlyReturn (docs : List Medicine) (id : String)
    (pagep sizep : Option String)
    (h : docs.find? (fun m => decide (m._id = idFilterValue id)) = none ∨
      ∃ base, docs.find? (fun m => decide (m._id = idFilterValue id)) = some base ∧
        truthyString base.composition_key = false) :
    apiAlternatives (ConnOutcome.connected ⟨docs, none⟩) id pagep sizep =
      (ApiResponse.okPage 0 [], [StoreOp.opFindOne]) := by
  rcases h with h | ⟨base, hfind, hkey⟩
  · simp [apiAlternatives, h]
  · simp [apiAlternatives, hfind, hkey]

/-- Witness for C6: a nonexistent id over a store that does hold records. -/
theorem alternativesEarlyReturn_witness :
    apiAlternatives (ConnOutcome.connected ⟨[paracetamolA, paracetamolB], none⟩)
        "zz" none none =
      (ApiResponse.okPage 0 [], [StoreOp.opFindOne]) :=
  alternativesEarlyReturn [paracetamolA, paracetamolB] "zz" none none
    (Or.inl (by decide))

/-! ## C5: get-by-id contract -/

/-- C5: the get-by-id handler resolves the `_id` filter to the typed ObjectId
when `id` is a valid native identifier and to the raw string otherwise; a
missing record yields 404 with body `{error: "Not found"}`; a found record is
returned whole (the stored document, extra fields included, no projection);
and for any `id` whatsoever the lookup itself produces one of those two
outcomes — a malformed `id` never makes it fail. -/
theorem getByIdContract (docs : List Medicine) (id : String) :
    (ObjectId.isValid id = true → idFilterValue id = mkObjectId id) ∧
    (ObjectId.isValid id = false → idFilterValue id = BsonValue.str id) ∧
    (docs.find? (fun m => decide (m._id = idFilterValue id)) = none →
      apiGetMedicine (ConnOutcome.connected ⟨docs, none⟩) id =
        (ApiResponse.notFound, [StoreOp.opFindOne]) ∧
      ApiResponse.notFound.status = 404 ∧
      ApiResponse.notFound.errorMessage = some "Not found") ∧
    (∀ d, docs.find? (fun m => decide (m._id = idFilterValue id)) = some d →
      apiGetMedicine (ConnOutcome.connected ⟨docs, none⟩) id =
        (ApiResponse.okDocument d, [StoreOp.opFindOne]) ∧ d ∈ docs) ∧
    ((apiGetMedicine (ConnOutcome.connected ⟨docs, none⟩) id).1 =
        ApiResponse.notFound ∨
      ∃ d, (apiGetMedicine (ConnOutcome.connected ⟨docs, none⟩) id).1 =
        ApiResponse.okDocument d) := by
  refine ⟨?_, ?_, ?_, ?_, ?_⟩
  · intro h; simp [idFilterValue, h]
  · intro h; simp [idFilterValue, h]
  · intro h; exact ⟨by simp [apiGetMedicine, h], rfl, rfl⟩
  · intro d h
    exact ⟨by simp [apiGetMedicine, h], List.mem_of_find?_eq_some h⟩
  · cases hf : docs.find? (fun m => decide (m._id = idFilterValue id)) with
    | none => exact Or.inl (by simp [apiGetMedicine, hf])
    | some d => exact Or.inr ⟨d, by simp [apiGetMedicine, hf]⟩

/-- Witness for C5: a malformed id ("zzz") falls back to a raw-string lookup
and yields 404; a well-formed ObjectId string finds the full record. -/
theorem getByIdContract_witness :
    apiGetMedicine (ConnOutcome.connected ⟨[paracetamolA], none⟩) "zzz" =
      (ApiResponse.notFound, [StoreOp.opFindOne]) ∧
    apiGetMedicine (ConnOutcome.connected ⟨[paracetamolA], none⟩)
        "aaaaaaaaaaaaaaaaaaaaaaaa" =
      (ApiResponse.okDocument paracetamolA, [StoreOp.opFindOne]) :=
  ⟨((getByIdContract [paracetamolA] "zzz").2.2.1 (by decide)).1,
   ((getByIdContract [paracetamolA] "aaaaaaaaaaaaaaaaaaaaaaaa").2.2.2.1
      paracetamolA (by decide)).1⟩

/-! ## C3: empty query short-circuit -/

lemma jsTrim_eq_empty {s : String} (h : s.data.all jsWhitespace = true) :
    jsTrim s = "" := by
  have h1 : s.data.dropWhile jsWhitespace = [] := by
    rw [List.dropWhile_eq_nil_iff]
    exact fun x hx => List.all_eq_true.mp h x hx
  simp [jsTrim, h1]

/-- C3 counterexample: the handler awaits `connectToDb()` before inspecting
`q` (line 74 precedes line 79), so when the connection attempt fails, even an
empty query is answered with HTTP 500 rather than `{total: 0, documents: []}`. -/
theorem emptyQueryConnFailure_cex :
    apiSearch ConnOutcome.failed (some "") none none =
      (ApiResponse.serverError connectErrorMessage, []) ∧
    (apiSearch ConnOutcome.failed (some "") none none).1 ≠
      ApiResponse.okPage 0 [] ∧
    (apiSearch ConnOutcome.failed (some "") none none).1.status = 500 :=
  ⟨rfl, by decide, rfl⟩

/-- C3 (amended): provided the connection attempt succeeds, an empty or
whitespace-only `q` makes the search handler answer `{total: 0, documents: []}`
with no query issued to the store — for every store content, and even when any
store query would fail. -/
theorem emptyQueryShortCircuit (st : DbState) (qp pagep sizep : Option String)
    (hq : (jsOrDefault qp "").data.all jsWhitespace = true) :
    apiSearch (ConnOutcome.connected st) qp pagep sizep =
      (ApiResponse.okPage 0 [], []) := by
  simp [apiSearch, jsTrim_eq_empty hq]

/-- Witness for the amended C3: a whitespace-only query over a store whose
queries would all fail still yields the empty 200 answer with no store op. -/
theorem emptyQueryShortCircuit_witness :
    apiSearch (ConnOutcome.connected ⟨[paracetamolA], some "network error"⟩)
        (some "   ") none none = (ApiResponse.okPage 0 [], []) :=
  emptyQueryShortCircuit ⟨[paracetamolA], some "network error"⟩ (some "   ")
    none none (by decide)

/-! ## C4: total equals the page length -/

/-- C4: every successful page answer of search and alternatives reports
`total` equal to the number of documents in that page (never the full
matching count): the pair is literally `{total: docs.length, documents: docs}`.
The concrete conjuncts show `total` is not the full matching count: with two
matching records and `size=1`, search reports `total = 1` while the store
holds 2 matches; the returned page is the projected matching records in
store-native order. -/
theorem totalEqualsPageLength :
    (∀ conn qp pagep sizep t ds,
      (apiSearch conn qp pagep sizep).1 = ApiResponse.okPage t ds →
        t = ds.length) ∧
    (∀ conn id pagep sizep t ds,
      (apiAlternatives conn id pagep sizep).1 = ApiResponse.okPage t ds →
        t = ds.length) ∧
    ((apiSearch (ConnOutcome.connected ⟨[paracetamolA, paracetamolB], none⟩)
        (some "para") none (some "1")).1 =
      ApiResponse.okPage 1 [project paracetamolA]) ∧
    (([paracetamolA, paracetamolB].filter (searchMatch "para")).length = 2) ∧
    (∀ (st : DbState) (q : String) (pagep sizep : Option String) (p s : Int),
      jsTrim q = q → ¬ q = "" → st.queryError = none →
      effectivePage pagep = some p → effectiveSearchSize sizep = some s →
      pageDocuments (apiSearch (ConnOutcome.connected st) (some q) pagep sizep) =
        (((st.docs.filter (searchMatch q)).drop (p * s).toNat).take s.toNat).map
          project) ∧
    (∀ (st : DbState) (id : String) (pagep sizep : Option String) (p s : Int)
      (base : Medicine),
      st.queryError = none →
      st.docs.find? (fun m => decide (m._id = idFilterValue id)) = some base →
      truthyString base.composition_key = true →
      effectivePage pagep = some p → effectiveAltSize sizep = some s →
      pageDocuments (apiAlternatives (ConnOutcome.connected st) id pagep sizep) =
        (((st.docs.filter (fun m => decide (m.composition_key =
            base.composition_key ∧ m._id ≠ base._id))).drop
          (p * s).toNat).take s.toNat).map project) := by
  refine ⟨?_, ?_, by decide, by decide, ?_, ?_⟩
  · intro conn qp pagep sizep t ds h
    cases conn with
    | failed => simp [apiSearch] at h
    | connected st =>
      simp only [apiSearch] at h
      repeat' split at h
      all_goals (try (simp at h))
      all_goals (obtain ⟨h1, h2⟩ := h; subst h1; subst h2; simp)
  · intro conn id pagep sizep t ds h
    cases conn with
    | failed => simp [apiAlternatives] at h
    | connected st =>
      simp only [apiAlternatives] at h
      repeat' split at h
      all_goals (try (simp at h))
      all_goals (obtain ⟨h1, h2⟩ := h; subst h1; subst h2; simp)
  · intro st q pagep sizep p s hqt hq hqe hp hs
    simp [apiSearch, jsOrDefault, hq, hqt, hqe, hp, hs, mongoFind, pageDocuments]
  · intro st id pagep sizep p s base hqe hfind htr hp hs
    simp [apiAlternatives, hqe, hfind, htr, hp, hs, mongoFind, pageDocuments]

/-- Witness for C4 at a concrete successful request. -/
theorem totalEqualsPageLength_witness : (1 : Nat) = [project paracetamolA].length :=
  totalEqualsPageLength.1 (ConnOutcome.connected ⟨[paracetamolA, paracetamolB], none⟩)
    (some "para") none (some "1") 1 [project paracetamolA] (by decide)

/-! ## C1: search matching -/

lemma matchAt_all_lit (l : List Char) (s : List Char)
    (hl : ∀ c ∈ l, isRegexMeta c = false) :
    matchAt (l.map (fun c => if c = '.' then RElem.dot else RElem.lit c)) s =
      List.isPrefixOf (l.map Char.toLower) (s.map Char.toLower) := by
  induction l generalizing s with
  | nil => cases s <;> simp [matchAt, List.isPrefixOf]
  | cons c cs ih =>
    have hcdot : ¬ c = '.' := by
      intro hc; subst hc
      have h := hl '.' (by simp)
      simp [isRegexMeta] at h
    cases s with
    | nil => simp [matchAt, hcdot, List.isPrefixOf]
    | cons d ds =>
      have ihds := ih ds (fun x hx => hl x (List.mem_cons_of_mem _ hx))
      simp [matchAt, hcdot, List.isPrefixOf, charEqCI, ihds]

/-- C1 counterexample: the query string is spliced into
`new RegExp("^" + q, "i")` unescaped, so for `q = "."` the pattern is the
any-character wildcard: the record with brand_name `"X"` is matched and
returned although `"X"` does not begin with `"."` under any case folding. -/
theorem searchRegexWildcard_cex :
    (apiSearch (ConnOutcome.connected ⟨[medX], none⟩) (some ".") none none).1 =
      ApiResponse.okPage 1 [project medX] ∧
    specStartsWithCI "." medX.brand_name = false ∧
    searchMatch "." medX = true :=
  ⟨by decide, by decide, by decide⟩

/-- C1 (amended): for every query `q` that is non-empty, trim-stable and free
of regex metacharacters, the search filter matches a record exactly when its
brand_name begins with `q` case-insensitively, and the handler returns
precisely the projected matching records in store-native order with
skip `page*size` and limit `size`. -/
theorem searchMatchesCaseInsensitiveStart (q : String) (st : DbState)
    (pagep sizep : Option String) (p s : Int)
    (hqt : jsTrim q = q) (hq : ¬ q = "")
    (hlit : ∀ c ∈ q.data, isRegexMeta c = false)
    (hqe : st.queryError = none)
    (hp : effectivePage pagep = some p) (hs : effectiveSearchSize sizep = some s) :
    (∀ m : Medicine, searchMatch q m = specStartsWithCI q m.brand_name) ∧
    apiSearch (ConnOutcome.connected st) (some q) pagep sizep =
      (ApiResponse.okPage
        ((((st.docs.filter (fun m => specStartsWithCI q m.brand_name)).drop
            (p * s).toNat).take s.toNat).map project).length
        ((((st.docs.filter (fun m => specStartsWithCI q m.brand_name)).drop
            (p * s).toNat).take s.toNat).map project),
        [StoreOp.opFind]) := by
  have hpred : ∀ m : Medicine, searchMatch q m = specStartsWithCI q m.brand_name := by
    intro m
    unfold searchMatch specStartsWithCI compileQueryRegex
    exact matchAt_all_lit q.data m.brand_name.data hlit
  refine ⟨hpred, ?_⟩
  have hfilter : st.docs.filter (searchMatch q) =
      st.docs.filter (fun m => specStartsWithCI q m.brand_name) :=
    List.filter_congr (fun m _ => hpred m)
  simp [apiSearch, jsOrDefault, hq, hqt, hqe, hp, hs, mongoFind, hfilter]

/-- Witness for the amended C1: the spec's own example, `q = "PARA"` against
`"Paracetamol"`, matches case-insensitively and is returned projected. -/
theorem searchMatchesCaseInsensitiveStart_witness :
    apiSearch (ConnOutcome.connected ⟨[paracetamolA, medX], none⟩) (some "PARA")
        none none =
      (ApiResponse.okPage 1 [project paracetamolA], [StoreOp.opFind]) := by
  have h := searchMatchesCaseInsensitiveStart "PARA" ⟨[paracetamolA, medX], none⟩
    none none 0 20 (by decide) (by decide) (by decide) rfl (by decide) (by decide)
  exact h.2.trans (by decide)

/-! ## C7: alternatives share the key and exclude the base -/

/-- C7: when the base record exists and carries a truthy composition key `K`,
the alternatives handler queries exactly the records whose `composition_key`
equals `K` and whose `_id` differs from the base's: the page is the
projection of that filtered sequence in store order with skip `page*size` and
limit `size`; no returned document carries the base `_id`; and on page 0 with
a size no smaller than the number of sharing records, every sharing record
appears (projected) in the page. -/
theorem alternativesSharedKeyExcludesBase (docs : List Medicine) (id : String)
    (pagep sizep : Option String) (p s : Int) (base : Medicine) (K : String)
    (hfind : docs.find? (fun m => decide (m._id = idFilterValue id)) = some base)
    (hkey : base.composition_key = some K) (hK : ¬ K = "")
    (hp : effectivePage pagep = some p) (hs : effectiveAltSize sizep = some s) :
    apiAlternatives (ConnOutcome.connected ⟨docs, none⟩) id pagep sizep =
      (ApiResponse.okPage
        ((((docs.filter (fun m => decide (m.composition_key = some K ∧
            m._id ≠ base._id))).drop (p * s).toNat).take s.toNat).map project).length
        ((((docs.filter (fun m => decide (m.composition_key = some K ∧
            m._id ≠ base._id))).drop (p * s).toNat).take s.toNat).map project),
        [StoreOp.opFindOne, StoreOp.opFind]) ∧
    (∀ d ∈ pageDocuments
        (apiAlternatives (ConnOutcome.connected ⟨docs, none⟩) id pagep sizep),
      d._id ≠ base._id) ∧
    (p = 0 →
      (docs.filter (fun m => decide (m.composition_key = some K ∧
        m._id ≠ base._id))).length ≤ s.toNat →
      ∀ C ∈ docs, C.composition_key = some K → C._id ≠ base._id →
        project C ∈ pageDocuments
          (apiAlternatives (ConnOutcome.connected ⟨docs, none⟩) id pagep sizep)) := by
  have htr : truthyString (some K) = true := by
    simp [truthyString, hK]
  have hmain : apiAlternatives (ConnOutcome.connected ⟨docs, none⟩) id pagep sizep =
      (ApiResponse.okPage
        ((((docs.filter (fun m => decide (m.composition_key = some K ∧
            m._id ≠ base._id))).drop (p * s).toNat).take s.toNat).map project).length
        ((((docs.filter (fun m => decide (m.composition_key = some K ∧
            m._id ≠ base._id))).drop (p * s).toNat).take s.toNat).map project),
        [StoreOp.opFindOne, StoreOp.opFind]) := by
    simp [apiAlternatives, hfind, htr, hp, hs, mongoFind, hkey]
  refine ⟨hmain, ?_, ?_⟩
  · intro d hd
    rw [hmain] at hd
    simp only [pageDocuments] at hd
    obtain ⟨m, hm, rfl⟩ := List.mem_map.mp hd
    have hmf : m ∈ docs.filter (fun m => decide (m.composition_key = some K ∧
        m._id ≠ base._id)) :=
      List.mem_of_mem_drop (List.mem_of_mem_take hm)
    have hpred := (List.mem_filter.mp hmf).2
    have hneq : m._id ≠ base._id := (of_decide_eq_true hpred).2
    simpa [project] using hneq
  · rintro rfl hlen C hC hCkey hCneq
    rw [hmain]
    simp only [pageDocuments]
    have hCf : C ∈ docs.filter (fun m => decide (m.composition_key = some K ∧
        m._id ≠ base._id)) :=
      List.mem_filter.mpr ⟨hC, decide_eq_true ⟨hCkey, hCneq⟩⟩
    rw [show ((0 : Int) * s).toNat = 0 by simp, List.drop_zero,
      List.take_of_length_le hlen]
    exact List.mem_map_of_mem project hCf

/-- Witness for C7: base `paracetamolA` with two sharing records; both appear
projected, the base does not. -/
theorem alternativesSharedKeyExcludesBase_witness :
    apiAlternatives (ConnOutcome.connected
        ⟨[paracetamolA, paracetamolB, paracetamolC], none⟩)
      "aaaaaaaaaaaaaaaaaaaaaaaa" none none =
      (ApiResponse.okPage 2 [project paracetamolB, project paracetamolC],
        [StoreOp.opFindOne, StoreOp.opFind]) ∧
    project paracetamolB ∈ pageDocuments
      (apiAlternatives (ConnOutcome.connected
        ⟨[paracetamolA, paracetamolB, paracetamolC], none⟩)
        "aaaaaaaaaaaaaaaaaaaaaaaa" none none) ∧
    (∀ d ∈ pageDocuments (apiAlternatives (ConnOutcome.connected
        ⟨[paracetamolA, paracetamolB, paracetamolC], none⟩)
        "aaaaaaaaaaaaaaaaaaaaaaaa" none none),
      d._id ≠ paracetamolA._id) := by
  have h := alternativesSharedKeyExcludesBase
    [paracetamolA, paracetamolB, paracetamolC] "aaaaaaaaaaaaaaaaaaaaaaaa"
    none none 0 100 paracetamolA "acetaminophen-500"
    (by decide) (by decide) (by decide) (by decide) (by decide)
  exact ⟨h.1.trans (by decide),
    h.2.2 rfl (by decide) paracetamolB (by decide) (by decide) (by decide),
    h.2.1⟩

/-! ## C8: pagination concatenation -/

lemma range_flatMap_take_one {α : Type} (L : List α) (k : Nat) (hk : k ≤ L.length) :
    (List.range k).flatMap (fun i => (L.drop i).take 1) = L.take k := by
  induction k with
  | zero => simp
  | succ n ih =>
    rw [List.range_succ, List.flatMap_append, ih (Nat.le_of_succ_le hk)]
    simp only [List.flatMap_cons, List.flatMap_nil, List.append_nil]
    rw [← List.take_add]

/-- C8: over a fixed store, requesting search with `size=1` for pages
`0..N-1` (`N` the number of matching records) and concatenating the returned
pages yields the same ordered document sequence as a single request whose
effective size is at least `N`. -/
theorem searchPaginationConcat (docs : List Medicine) (q : String)
    (ps : Nat → Option String) (szp : Option String) (S : Int)
    (hqt : jsTrim q = q) (hq : ¬ q = "")
    (hps : ∀ i, i < (docs.filter (searchMatch q)).length →
      effectivePage (ps i) = some (i : Int))
    (hsz : effectiveSearchSize szp = some S)
    (hS : ((docs.filter (searchMatch q)).length : Int) ≤ S) :
    (List.range (docs.filter (searchMatch q)).length).flatMap
        (fun i => pageDocuments (apiSearch (ConnOutcome.connected ⟨docs, none⟩)
          (some q) (ps i) (some "1"))) =
      pageDocuments (apiSearch (ConnOutcome.connected ⟨docs, none⟩)
        (some q) (some "0") szp) := by
  set L := docs.filter (searchMatch q) with hL
  have hs1 : effectiveSearchSize (some "1") = some 1 := by decide
  have hp0 : effectivePage (some "0") = some 0 := by decide
  have hlen_le : L.length ≤ S.toNat := by omega
  have hpage : ∀ i ∈ List.range L.length,
      pageDocuments (apiSearch (ConnOutcome.connected ⟨docs, none⟩)
        (some q) (ps i) (some "1")) = ((L.drop i).take 1).map project := by
    intro i hi
    have hpi := hps i (List.mem_range.mp hi)
    simp [apiSearch, jsOrDefault, hq, hqt, hpi, hs1, mongoFind, pageDocuments, ← hL]
  have hrhs : pageDocuments (apiSearch (ConnOutcome.connected ⟨docs, none⟩)
      (some q) (some "0") szp) = L.map project := by
    simp [apiSearch, jsOrDefault, hq, hqt, hp0, hsz, mongoFind, pageDocuments, ← hL,
      List.take_of_length_le hlen_le]
  calc (List.range L.length).flatMap
        (fun i => pageDocuments (apiSearch (ConnOutcome.connected ⟨docs, none⟩)
          (some q) (ps i) (some "1")))
      = (List.range L.length).flatMap (fun i => ((L.drop i).take 1).map project) :=
        List.flatMap_congr hpage
    _ = ((List.range L.length).flatMap (fun i => (L.drop i).take 1)).map project :=
        (List.map_flatMap project _ _).symm
    _ = (L.take L.length).map project := by
        rw [range_flatMap_take_one L L.length le_rfl]
    _ = L.map project := by rw [List.take_length]
    _ = pageDocuments (apiSearch (ConnOutcome.connected ⟨docs, none⟩)
        (some q) (some "0") szp) := hrhs.symm

/-- Witness for C8 with two matching records, pages "0" and "1" of size 1
against one size-200 request. -/
theorem searchPaginationConcat_witness :
    (List.range ([paracetamolA, paracetamolB].filter
        (searchMatch "para")).length).flatMap
      (fun i => pageDocuments
        (apiSearch (ConnOutcome.connected ⟨[paracetamolA, paracetamolB], none⟩)
          (some "para") (some (toString i)) (some "1"))) =
      pageDocuments
        (apiSearch (ConnOutcome.connected ⟨[paracetamolA, paracetamolB], none⟩)
          (some "para") (some "0") (some "200")) :=
  searchPaginationConcat [paracetamolA, paracetamolB] "para"
    (fun i => some (toString i)) (some "200") 200
    (by decide) (by decide) (by decide) (by decide) (by decide)

/-! ## C9: error handling at the handler boundary -/

/-- C9: a failed connection attempt makes every endpoint answer 500 whose
body carries the string description of the error `connectToDb` throws; a
store query that throws `e` surfaces as 500 with body `{error: e}`; and every
request — whatever the connection state and parameters — receives exactly one
well-formed response with status 200, 404 or 500, after at most one `findOne`
and one `find` (no retry, no propagation out of the handler). -/
theorem errorsCaughtAs500 :
    (∀ qp pagep sizep, apiSearch ConnOutcome.failed qp pagep sizep =
      (ApiResponse.serverError connectErrorMessage, [])) ∧
    (∀ id, apiGetMedicine ConnOutcome.failed id =
      (ApiResponse.serverError connectErrorMessage, [])) ∧
    (∀ id pagep sizep, apiAlternatives ConnOutcome.failed id pagep sizep =
      (ApiResponse.serverError connectErrorMessage, [])) ∧
    ((ApiResponse.serverError connectErrorMessage).status = 500 ∧
      (ApiResponse.serverError connectErrorMessage).errorMessage =
        some connectErrorMessage) ∧
    (∀ docs e qp pagep sizep, ¬ jsTrim (jsOrDefault qp "") = "" →
      apiSearch (ConnOutcome.connected ⟨docs, some e⟩) qp pagep sizep =
        (ApiResponse.serverError e, [StoreOp.opFind])) ∧
    (∀ docs e id, apiGetMedicine (ConnOutcome.connected ⟨docs, some e⟩) id =
      (ApiResponse.serverError e, [StoreOp.opFindOne])) ∧
    (∀ docs e id pagep sizep,
      apiAlternatives (ConnOutcome.connected ⟨docs, some e⟩) id pagep sizep =
        (ApiResponse.serverError e, [StoreOp.opFindOne])) ∧
    (∀ e, (ApiResponse.serverError e).errorMessage = some e ∧
      (ApiResponse.serverError e).status = 500) ∧
    (∀ conn qp pagep sizep,
      ((apiSearch conn qp pagep sizep).1.status = 200 ∨
        (apiSearch conn qp pagep sizep).1.status = 500) ∧
      (apiSearch conn qp pagep sizep).2.length ≤ 1) ∧
    (∀ conn id, ((apiGetMedicine conn id).1.status = 200 ∨
        (apiGetMedicine conn id).1.status = 404 ∨
        (apiGetMedicine conn id).1.status = 500) ∧
      (apiGetMedicine conn id).2.length ≤ 1) ∧
    (∀ conn id pagep sizep,
      ((apiAlternatives conn id pagep sizep).1.status = 200 ∨
        (apiAlternatives conn id pagep sizep).1.status = 500) ∧
      (apiAlternatives conn id pagep sizep).2.length ≤ 2) := by
  refine ⟨fun _ _ _ => rfl, fun _ => rfl, fun _ _ _ => rfl, ⟨rfl, rfl⟩,
    ?_, fun _ _ _ => rfl, fun _ _ _ _ _ => rfl, fun _ => ⟨rfl, rfl⟩, ?_, ?_, ?_⟩
  · intro docs e qp pagep sizep hq
    simp [apiSearch, hq]
  · intro conn qp pagep sizep
    cases conn with
    | failed => simp [apiSearch, ApiResponse.status]
    | connected st =>
      constructor
      · simp only [apiSearch]
        repeat' split
        all_goals simp [ApiResponse.status]
      · simp only [apiSearch]
        repeat' split
        all_goals simp
  · intro conn id
    cases conn with
    | failed => simp [apiGetMedicine, ApiResponse.status]
    | connected st =>
      constructor
      · simp only [apiGetMedicine]
        repeat' split
        all_goals simp [ApiResponse.status]
      · simp only [apiGetMedicine]
        repeat' split
        all_goals simp
  · intro conn id pagep sizep
    cases conn with
    | failed => simp [apiAlternatives, ApiResponse.status]
    | connected st =>
      constructor
      · simp only [apiAlternatives]
        repeat' split
        all_goals simp [ApiResponse.status]
      · simp only [apiAlternatives]
        repeat' split
        all_goals simp

/-- Witness for C9: a cold-start connection failure and a store query failure
are both surfaced as 500 JSON errors. -/
theorem errorsCaughtAs500_witness :
    apiSearch ConnOutcome.failed (some "para") none none =
      (ApiResponse.serverError connectErrorMessage, []) ∧
    apiSearch (ConnOutcome.connected
        ⟨[paracetamolA], some "MongoNetworkError: connection closed"⟩)
      (some "para") none none =
      (ApiResponse.serverError "MongoNetworkError: connection closed",
        [StoreOp.opFind]) :=
  ⟨errorsCaughtAs500.1 (some "para") none none,
   errorsCaughtAs500.2.2.2.2.1 [paracetamolA]
     "MongoNetworkError: connection closed" (some "para") none none (by decide)⟩
